import Mathlib

/-!
Verification of the bucket-administration service of this repository
(`src/server/src/services/s3Service.js`, `src/server/src/routes/files.js`,
and the Joi validation schemas) against its natural-language specification.

The JavaScript is embedded shallowly:
* a JS function that can `throw` is modelled as a function into `Except`,
  where `.error m` models `throw new Error(m)`;
* the AWS provider (network) calls are modelled by a `Provider` record of
  pure functions supplied as a parameter, one per AWS command the code sends;
* side effects (which provider calls were made, which resources were
  deleted) are returned explicitly as trace fields of the result records.
-/

set_option autoImplicit false

namespace S3Admin

/-! ## Character-level helpers shared by the validator embeddings -/

/-- Character class of the JS regex `[a-z0-9.-]` in `validateBucketName`. -/
def bucketCharOk (c : Char) : Bool :=
  ('a' ≤ c && c ≤ 'z') || ('0' ≤ c && c ≤ '9') || c == '.' || c == '-'

/-- The JS regex test `/^[a-z0-9.-]+$/.test s`: nonempty and every
character in the class. -/
def matchesBucketRegex (l : List Char) : Bool :=
  !l.isEmpty && l.all bucketCharOk

/-- JS `s.startsWith "."` on the character list of `s`. -/
def startsWithDot (l : List Char) : Bool :=
  match l with
  | '.' :: _ => true
  | _ => false

/-- JS `s.endsWith "."` on the character list of `s`. -/
def endsWithDot (l : List Char) : Bool :=
  startsWithDot l.reverse

/-- `isPref needle hay` holds when `needle` is an initial segment of `hay`. -/
def isPref (needle hay : List Char) : Bool :=
  match needle, hay with
  | [], _ => true
  | _, [] => false
  | n :: ns, h :: hs => decide (n = h) && isPref ns hs

/-- JS `hay.includes needle` (substring containment) on character lists. -/
def containsRun (needle : List Char) : List Char → Bool
  | [] => isPref needle []
  | c :: rest => isPref needle (c :: rest) || containsRun needle rest

/-! ## Naming Validator (`s3Service.validateBucketName`, lines 324-348)

The JS method reports a rejection by `throw new Error(message)`; the
embedding returns `.error message` for a throw and `.ok ()` for a normal
return. -/

def msgRequired : String := "Bucket name is required"

def msgLength : String := "Bucket name must be between 3 and 63 characters"

def msgCharset : String :=
  "Bucket name can only contain lowercase letters, numbers, dots, and hyphens"

def msgEdgeDot : String := "Bucket name cannot start or end with a dot"

def msgConsecDots : String := "Bucket name cannot contain consecutive dots"

def msgDotHyphen : String := "Bucket name cannot contain dots adjacent to hyphens"

/-- Embedding of `validateBucketName`.  The JS guard `if (!bucketName)` is,
for string inputs, a test for the empty string, embedded as a length test. -/
def validateBucketName (bucketName : String) : Except String Unit :=
  if bucketName.length = 0 then .error msgRequired
  else if bucketName.length < 3 ∨ bucketName.length > 63 then .error msgLength
  else if ¬ matchesBucketRegex bucketName.toList then .error msgCharset
  else if startsWithDot bucketName.toList ∨ endsWithDot bucketName.toList then
    .error msgEdgeDot
  else if containsRun ['.', '.'] bucketName.toList then .error msgConsecDots
  else if containsRun ['.', '-'] bucketName.toList ∨
      containsRun ['-', '.'] bucketName.toList then .error msgDotHyphen
  else .ok ()

/-- Acceptance condition written from the specification sentence: length in
[3,63], matches the class regex, no edge dot, no consecutive dots, no
dot-hyphen adjacency. -/
def specAccepts (s : String) : Prop :=
  3 ≤ s.length ∧ s.length ≤ 63 ∧ matchesBucketRegex s.toList = true ∧
  startsWithDot s.toList = false ∧ endsWithDot s.toList = false ∧
  containsRun ['.', '.'] s.toList = false ∧
  containsRun ['.', '-'] s.toList = false ∧
  containsRun ['-', '.'] s.toList = false

instance (s : String) : Decidable (specAccepts s) := by
  unfold specAccepts; infer_instance

/-- Soundness relation between a rejection message and the rule it names:
each message is tied to the condition under which the source raises it. -/
def reasonMatches (s m : String) : Prop :=
  (m = msgRequired ∧ s.length = 0) ∨
  (m = msgLength ∧ (s.length < 3 ∨ s.length > 63)) ∨
  (m = msgCharset ∧ matchesBucketRegex s.toList = false) ∨
  (m = msgEdgeDot ∧
    (startsWithDot s.toList = true ∨ endsWithDot s.toList = true)) ∨
  (m = msgConsecDots ∧ containsRun ['.', '.'] s.toList = true) ∨
  (m = msgDotHyphen ∧
    (containsRun ['.', '-'] s.toList = true ∨
     containsRun ['-', '.'] s.toList = true))

theorem validateBucketName_ok_iff (s : String) :
    validateBucketName s = .ok () ↔ specAccepts s := by
  unfold validateBucketName specAccepts
  split_ifs with h1 h2 h3 h4 h5 h6 <;> simp_all
  · intro a b; exfalso; rcases h2 with h | h <;> omega
  · intro hs he; rcases h4 with h | h <;> simp_all
  · intro hc; rcases h6 with h | h <;> simp_all

theorem validateBucketName_error_sound (s m : String)
    (h : validateBucketName s = .error m) : reasonMatches s m := by
  unfold validateBucketName at h
  unfold reasonMatches
  split_ifs at h with h1 h2 h3 h4 h5 h6 <;> simp_all

/-- C6: for every candidate resource identifier, the Naming Validator
accepts it exactly when its length is in [3,63], it matches
`^[a-z0-9.-]+$`, it does not start or end with a dot, it has no
consecutive dots and no dot-hyphen adjacency; and every rejection carries
the message of a rule the identifier actually violates. -/
theorem C6_validator_accepts_iff_rules (s : String) :
    (validateBucketName s = .ok () ↔ specAccepts s) ∧
    (∀ m : String, validateBucketName s = .error m → reasonMatches s m) :=
  ⟨validateBucketName_ok_iff s, fun m h => validateBucketName_error_sound s m h⟩

theorem C6_validator_accepts_iff_rules_witness :
    validateBucketName "valid-bucket.name" = .ok () ∧
    reasonMatches "my..bucket" msgConsecDots :=
  ⟨(C6_validator_accepts_iff_rules "valid-bucket.name").1.mpr (by decide),
   (C6_validator_accepts_iff_rules "my..bucket").2 msgConsecDots (by rfl)⟩

/-- C7 counterexample: the claim says the validator never throws an
exception for a malformed input.  In the source, rejection is performed by
`throw new Error(...)` (modelled by `.error`): on input "ab" the function
exits by throwing the length message instead of returning a verdict. -/
theorem C7_counterexample_validator_throws :
    validateBucketName "ab" = .error msgLength := rfl

/-- C7 (amended): the validator is total and structured in the sense that
every input string deterministically either passes (normal return) or
raises an `Error` carrying the message of a rule the input violates; no
other failure mode exists.  Rejection is signalled by throwing, not by a
returned verdict value. -/
theorem C7_validator_total_structured (s : String) :
    validateBucketName s = .ok () ∨
    ∃ m : String, validateBucketName s = .error m ∧ reasonMatches s m := by
  cases h : validateBucketName s with
  | ok u => cases u; exact Or.inl rfl
  | error m => exact Or.inr ⟨m, rfl, validateBucketName_error_sound s m h⟩

/-! ## Storage Gateway model

The AWS SDK commands sent by `s3Service.js` are modelled by a `Provider`
record of pure functions, one per command; `.error m` models a rejected
(`throw`n) SDK call whose error message is `m`.  Access points are
identified by their names (the only field the code reads). -/

/-- Fields of a `ListObjectsV2Command` as this program constructs them
(`Bucket`, optional `Prefix`, optional `MaxKeys`; no other field — in
particular no continuation token — is ever set by this code base). -/
structure ListObjectsV2Request where
  bucket : String
  pfx : Option String
  maxKeys : Option Nat
  deriving DecidableEq

/-- One entry of a listing response `Contents` array. -/
structure S3Object where
  key : String
  size : Nat
  lastModified : Nat
  etag : String
  storageClass : Option String
  deriving DecidableEq

/-- Response of `ListObjectsV2Command` (the fields the code reads). -/
structure ListObjectsResponse where
  contents : List S3Object
  isTruncated : Bool
  nextContinuationToken : Option String
  keyCount : Nat
  deriving DecidableEq

/-- The provider (AWS) as seen through the SDK commands this code sends. -/
structure Provider where
  listObjects : ListObjectsV2Request → Except String ListObjectsResponse
  deleteBucketRaw : String → Except String Unit
  listAccessPointsRaw : String → String → Except String (List String)
  deleteAccessPointRaw : String → String → Except String Unit

/-- JS `hay.includes needle`. -/
def strIncludes (hay needle : String) : Bool :=
  containsRun needle.toList hay.toList

/-- JS `Error` object as thrown by `deleteBucket`: a message plus the two
custom properties the code sometimes attaches. -/
structure JsError where
  message : String
  code : Option String := none
  accessPoints : Option (List String) := none
  deriving DecidableEq

/-- Embedding of `s3Service.listAccessPoints` (lines 94-107): best-effort,
returns the empty list instead of throwing when the control-plane call
fails. -/
def listAccessPoints (p : Provider) (bucketName accountId : String) : List String :=
  match p.listAccessPointsRaw bucketName accountId with
  | .ok l => l
  | .error _ => []

/-- Embedding of `s3Service.deleteAccessPoint` (lines 109-121). -/
def deleteAccessPoint (p : Provider) (accessPointName accountId : String) :
    Except String String :=
  match p.deleteAccessPointRaw accessPointName accountId with
  | .ok _ => .ok ("Access point " ++ accessPointName ++ " deleted successfully")
  | .error m =>
      .error ("Failed to delete access point " ++ accessPointName ++ ": " ++ m)

/-! ## Plain delete (`s3Service.deleteBucket`, lines 123-172) -/

/-- The emptiness-check listing request built at line 126:
`new ListObjectsV2Command({ Bucket: bucketName })` — only the bucket is
set; no `MaxKeys` bound and no prefix. -/
def emptinessCheckRequest (bucketName : String) : ListObjectsV2Request :=
  { bucket := bucketName, pfx := none, maxKeys := none }

/-- The provider error text `deleteBucket` sniffs for at line 140. -/
def apErrorSubstring : String := "access points attached"

/-- Message thrown at line 145 when no account id is configured. -/
def msgNoAccountId : String :=
  "Bucket has access points attached and cannot be deleted. Please set AWS_ACCOUNT_ID environment variable to enable access point management."

/-- Message built at line 154 when blocking access points are found. -/
def accessPointsBlockedMessage (aps : List String) : String :=
  "Bucket has " ++ toString aps.length ++ " access point(s) attached: " ++
    String.intercalate ", " aps ++
    ". These must be deleted before the bucket can be removed."

/-- Observable outcome of one `deleteBucket` / forced-delete call: the
value returned or error thrown, plus a trace of the mutating provider
calls the run performed. -/
structure DeleteBucketRun where
  result : Except JsError String
  listObjectsRequested : Bool
  rawDeleteAttempted : Bool
  bucketDeleted : Bool
  accessPointsDeleted : List String

/-- Embedding of the inner `try` of `deleteBucket` (lines 134-168): the raw
`DeleteBucketCommand` attempt and the access-point sniffing on its failure.
The innermost catch rethrows the coded error, which the OUTER catch at line
170 then wraps in `new Error(...)`: only the message survives, so every
`.error` produced here has `code := none` and `accessPoints := none`. -/
def deleteBucketAttempt (p : Provider) (envAccountId : Option String)
    (bucketName : String) : DeleteBucketRun :=
  match p.deleteBucketRaw bucketName with
  | .ok _ =>
      { result := .ok "Bucket deleted successfully", listObjectsRequested := true,
        rawDeleteAttempted := true, bucketDeleted := true, accessPointsDeleted := [] }
  | .error m =>
      if strIncludes m apErrorSubstring then
        match envAccountId with
        | none =>
            { result := .error
                { message := "Failed to delete bucket: Failed to check access points: "
                    ++ msgNoAccountId },
              listObjectsRequested := true, rawDeleteAttempted := true,
              bucketDeleted := false, accessPointsDeleted := [] }
        | some accountId =>
            let accessPoints := listAccessPoints p bucketName accountId
            if accessPoints.length > 0 then
              { result := .error
                  { message := "Failed to delete bucket: "
                      ++ accessPointsBlockedMessage accessPoints },
                listObjectsRequested := true, rawDeleteAttempted := true,
                bucketDeleted := false, accessPointsDeleted := [] }
            else
              { result := .error { message := "Failed to delete bucket: " ++ m },
                listObjectsRequested := true, rawDeleteAttempted := true,
                bucketDeleted := false, accessPointsDeleted := [] }
      else
        { result := .error { message := "Failed to delete bucket: " ++ m },
          listObjectsRequested := true, rawDeleteAttempted := true,
          bucketDeleted := false, accessPointsDeleted := [] }

/-- Embedding of `s3Service.deleteBucket`.  `envAccountId` models
`process.env.AWS_ACCOUNT_ID`. -/
def deleteBucket (p : Provider) (envAccountId : Option String)
    (bucketName : String) : DeleteBucketRun :=
  match p.listObjects (emptinessCheckRequest bucketName) with
  | .error m =>
      { result := .error { message := "Failed to delete bucket: " ++ m },
        listObjectsRequested := true, rawDeleteAttempted := false,
        bucketDeleted := false, accessPointsDeleted := [] }
  | .ok resp =>
      if resp.contents.length > 0 then
        { result := .error
            { message := "Failed to delete bucket: Cannot delete bucket that contains objects" },
          listObjectsRequested := true, rawDeleteAttempted := false,
          bucketDeleted := false, accessPointsDeleted := [] }
      else
        deleteBucketAttempt p envAccountId bucketName

/-! ## Request Boundary for buckets (`routes/buckets.js`) -/

/-- Embedding of the Joi `bucketNameSchema` (middleware/validation.js lines
4-12): only a length range and the character-class pattern — none of the
dot rules of `validateBucketName`. -/
def bucketNameSchemaOk (s : String) : Bool :=
  decide (3 ≤ s.length) && decide (s.length ≤ 63) && matchesBucketRegex s.toList

/-- HTTP response produced by the bucket routes (the fields the claims
read). -/
structure RouteResponse where
  status : Nat
  message : String
  accessPoints : Option (List String)
  deriving DecidableEq

/-- Error classification of `DELETE /buckets/:name` (buckets.js lines
374-404). -/
def routeDeleteBucketError (e : JsError) : RouteResponse :=
  if strIncludes e.message "contains objects" then
    { status := 409, message := e.message, accessPoints := none }
  else if strIncludes e.message "not found" || strIncludes e.message "does not exist" then
    { status := 404, message := "Bucket not found", accessPoints := none }
  else if e.code == some "BUCKET_HAS_ACCESS_POINTS" then
    { status := 409, message := e.message, accessPoints := e.accessPoints }
  else
    { status := 500, message := e.message, accessPoints := none }

/-- Route outcome plus whether any provider (gateway) call was issued. -/
structure DeleteBucketRouteRun where
  response : RouteResponse
  gatewayCalled : Bool

/-- Embedding of `DELETE /buckets/:name` (buckets.js lines 356-406). -/
def deleteBucketRoute (p : Provider) (env : Option String) (name : String) :
    DeleteBucketRouteRun :=
  if bucketNameSchemaOk name = false then
    { response := { status := 400, message := "Invalid bucket name", accessPoints := none },
      gatewayCalled := false }
  else
    let run := deleteBucket p env name
    match run.result with
    | .ok msg =>
        { response := { status := 200, message := msg, accessPoints := none },
          gatewayCalled := run.listObjectsRequested }
    | .error e =>
        { response := routeDeleteBucketError e, gatewayCalled := run.listObjectsRequested }

theorem deleteBucketAttempt_rawDeleteAttempted (p : Provider)
    (env : Option String) (bucketName : String) :
    (deleteBucketAttempt p env bucketName).rawDeleteAttempted = true := by
  unfold deleteBucketAttempt
  cases p.deleteBucketRaw bucketName with
  | ok u => rfl
  | error m =>
      by_cases hinc : strIncludes m apErrorSubstring = true
      · simp only [hinc, if_true]
        cases env with
        | none => rfl
        | some accountId =>
            by_cases haps : (listAccessPoints p bucketName accountId).length > 0
            · simp [haps]
            · simp [haps]
      · simp [hinc]

theorem deleteBucket_nonempty (p : Provider) (env : Option String)
    (bucketName : String) (resp : ListObjectsResponse)
    (hlist : p.listObjects (emptinessCheckRequest bucketName) = .ok resp)
    (hne : resp.contents ≠ []) :
    deleteBucket p env bucketName =
      { result := .error
          { message := "Failed to delete bucket: Cannot delete bucket that contains objects" },
        listObjectsRequested := true, rawDeleteAttempted := false,
        bucketDeleted := false, accessPointsDeleted := [] } := by
  unfold deleteBucket
  rw [hlist]
  have hlen : resp.contents.length > 0 := List.length_pos.mpr hne
  simp [hlen]

/-- C3: for every Resource containing at least one Item, plain delete
fails with the NotEmpty error ("Cannot delete bucket that contains
objects", mapped by the route to HTTP 409), and neither the raw bucket
delete nor any access-point delete is ever issued. -/
theorem C3_nonempty_plain_delete (p : Provider) (env : Option String)
    (bucketName : String) (resp : ListObjectsResponse)
    (hlist : p.listObjects (emptinessCheckRequest bucketName) = .ok resp)
    (hne : resp.contents ≠ []) :
    (deleteBucket p env bucketName).result =
      .error { message := "Failed to delete bucket: Cannot delete bucket that contains objects" } ∧
    (deleteBucket p env bucketName).rawDeleteAttempted = false ∧
    (deleteBucket p env bucketName).bucketDeleted = false ∧
    (deleteBucket p env bucketName).accessPointsDeleted = [] ∧
    (bucketNameSchemaOk bucketName = true →
      (deleteBucketRoute p env bucketName).response.status = 409) := by
  have hrun := deleteBucket_nonempty p env bucketName resp hlist hne
  refine ⟨by rw [hrun], by rw [hrun], by rw [hrun], by rw [hrun], fun hs => ?_⟩
  unfold deleteBucketRoute
  rw [hs, hrun]
  rfl

def nonemptyProvider : Provider :=
  { listObjects := fun _ =>
      .ok { contents := [{ key := "report.txt", size := 4, lastModified := 0,
                           etag := "etag-a", storageClass := none }],
            isTruncated := false, nextContinuationToken := none, keyCount := 1 },
    deleteBucketRaw := fun _ => .error "raw delete must not be reached",
    listAccessPointsRaw := fun _ _ => .ok [],
    deleteAccessPointRaw := fun _ _ => .ok () }

theorem C3_nonempty_plain_delete_witness :
    (deleteBucket nonemptyProvider none "demo").result =
      .error { message := "Failed to delete bucket: Cannot delete bucket that contains objects" } ∧
    (deleteBucket nonemptyProvider none "demo").rawDeleteAttempted = false ∧
    (deleteBucket nonemptyProvider none "demo").bucketDeleted = false ∧
    (deleteBucket nonemptyProvider none "demo").accessPointsDeleted = [] ∧
    (deleteBucketRoute nonemptyProvider none "demo").response.status = 409 := by
  have h := C3_nonempty_plain_delete nonemptyProvider none "demo" _ rfl (by decide)
  exact ⟨h.1, h.2.1, h.2.2.1, h.2.2.2.1, h.2.2.2.2 (by decide)⟩

/-- C5 counterexample: the claim says the emptiness-check listing request
of plain delete bounds the number of returned items to 1; the request
built at line 126 for bucket "demo" sets no such bound. -/
theorem C5_counterexample_no_cap :
    (emptinessCheckRequest "demo").maxKeys ≠ some 1 := by decide

/-- C5 (amended): the emptiness check of plain delete is a presence check
on the `Contents` of a listing request that sets NO `MaxKeys` bound (the
provider default applies); the raw delete is attempted exactly when the
returned `Contents` is empty. -/
theorem C5_emptiness_check_uncapped (p : Provider) (env : Option String)
    (bucketName : String) (resp : ListObjectsResponse)
    (hlist : p.listObjects (emptinessCheckRequest bucketName) = .ok resp) :
    (emptinessCheckRequest bucketName).maxKeys = none ∧
    (deleteBucket p env bucketName).rawDeleteAttempted = resp.contents.isEmpty := by
  refine ⟨rfl, ?_⟩
  unfold deleteBucket
  rw [hlist]
  by_cases hlen : resp.contents.length > 0
  · have hne : resp.contents.isEmpty = false := by
      cases hc : resp.contents with
      | nil => rw [hc] at hlen; simp at hlen
      | cons a t => rfl
    simp [hlen, hne]
  · have hnil : resp.contents = [] := List.length_eq_zero.mp (by omega)
    simp [hlen, hnil, deleteBucketAttempt_rawDeleteAttempted]

def emptyBucketResp : ListObjectsResponse :=
  { contents := [], isTruncated := false, nextContinuationToken := none, keyCount := 0 }

def demo2Provider : Provider :=
  { listObjects := fun _ => .ok emptyBucketResp,
    deleteBucketRaw := fun _ =>
      .error "The bucket you tried to delete has access points attached to it",
    listAccessPointsRaw := fun _ _ => .ok ["ap1", "ap2"],
    deleteAccessPointRaw := fun _ _ => .ok () }

theorem C5_emptiness_check_uncapped_witness :
    (emptinessCheckRequest "demo2").maxKeys = none ∧
    (deleteBucket demo2Provider (some "123456789012") "demo2").rawDeleteAttempted =
      emptyBucketResp.contents.isEmpty :=
  C5_emptiness_check_uncapped demo2Provider (some "123456789012") "demo2"
    emptyBucketResp rfl

/-- C2 (code bug): on an empty Resource "demo2" with dependents
["ap1","ap2"] and an account id configured, plain delete does fail and
deletes nothing — but the `BUCKET_HAS_ACCESS_POINTS` code and the
`accessPoints` payload attached at lines 155-156 are stripped by the outer
catch (line 170), which rethrows a fresh `Error` carrying only the
message.  Consequently the route's `error.code === 'BUCKET_HAS_ACCESS_POINTS'`
branch (buckets.js lines 392-398) is unreachable and the caller receives a
generic 500 with no dependent-list payload, not the HasDependents kind the
claim (and the route code itself) expects. -/
theorem C2_code_bug_kind_stripped :
    (deleteBucket demo2Provider (some "123456789012") "demo2").accessPointsDeleted = [] ∧
    (deleteBucket demo2Provider (some "123456789012") "demo2").bucketDeleted = false ∧
    (deleteBucket demo2Provider (some "123456789012") "demo2").result =
      .error { message := "Failed to delete bucket: Bucket has 2 access point(s) attached: ap1, ap2. These must be deleted before the bucket can be removed.",
               code := none, accessPoints := none } ∧
    (deleteBucketRoute demo2Provider (some "123456789012") "demo2").response =
      { status := 500,
        message := "Failed to delete bucket: Bucket has 2 access point(s) attached: ap1, ap2. These must be deleted before the bucket can be removed.",
        accessPoints := none } :=
  ⟨rfl, rfl, rfl, rfl⟩

/-! ## Forced delete (`s3Service.deleteBucketWithAccessPoints`, lines 174-199) -/

/-- The success message built at lines 192-194 (ternary on the number of
access points that were listed). -/
def forceDeleteSuccessMessage (n : Nat) : String :=
  if n > 0 then
    "Bucket deleted successfully after removing " ++ toString n ++ " access point(s)"
  else "Bucket deleted successfully"

/-- The sequential `for (const accessPoint of accessPoints)` loop of lines
181-183: stops at the first throwing `deleteAccessPoint`; returns the
names deleted so far and the first failure message, if any. -/
def clearAccessPoints (p : Provider) (accountId : String) :
    List String → List String × Option String
  | [] => ([], none)
  | name :: rest =>
      match deleteAccessPoint p name accountId with
      | .error m => ([], some m)
      | .ok _ =>
          let r := clearAccessPoints p accountId rest
          (name :: r.1, r.2)

/-- Embedding of `deleteBucketWithAccessPoints`.  The local variable
`accessPoints` of the source is the pure call
`listAccessPoints p bucketName accountId`, inlined at its two use sites. -/
def deleteBucketWithAccessPoints (p : Provider) (bucketName accountId : String) :
    DeleteBucketRun :=
  match clearAccessPoints p accountId (listAccessPoints p bucketName accountId) with
  | (cleared, some failMsg) =>
      { result := .error
          { message := "Failed to delete bucket with access points: " ++ failMsg },
        listObjectsRequested := false, rawDeleteAttempted := false,
        bucketDeleted := false, accessPointsDeleted := cleared }
  | (cleared, none) =>
      match p.deleteBucketRaw bucketName with
      | .error m =>
          { result := .error
              { message := "Failed to delete bucket with access points: " ++ m },
            listObjectsRequested := false, rawDeleteAttempted := true,
            bucketDeleted := false, accessPointsDeleted := cleared }
      | .ok _ =>
          { result := .ok
              (forceDeleteSuccessMessage
                (listAccessPoints p bucketName accountId).length),
            listObjectsRequested := false, rawDeleteAttempted := true,
            bucketDeleted := true, accessPointsDeleted := cleared }

theorem clearAccessPoints_all_ok (p : Provider) (accountId : String)
    (l : List String)
    (h : ∀ x ∈ l, p.deleteAccessPointRaw x accountId = .ok ()) :
    clearAccessPoints p accountId l = (l, none) := by
  induction l with
  | nil => rfl
  | cons a t ih =>
      have ha : p.deleteAccessPointRaw a accountId = .ok () := h a (by simp)
      have ht := ih (fun x hx => h x (by simp [hx]))
      simp [clearAccessPoints, deleteAccessPoint, ha, ht]

theorem clearAccessPoints_first_fail (p : Provider) (accountId : String)
    (pre post : List String) (ap m : String)
    (hpre : ∀ x ∈ pre, p.deleteAccessPointRaw x accountId = .ok ())
    (hfail : p.deleteAccessPointRaw ap accountId = .error m) :
    clearAccessPoints p accountId (pre ++ ap :: post) =
      (pre, some ("Failed to delete access point " ++ ap ++ ": " ++ m)) := by
  induction pre with
  | nil => simp [clearAccessPoints, deleteAccessPoint, hfail]
  | cons a t ih =>
      have ha : p.deleteAccessPointRaw a accountId = .ok () := hpre a (by simp)
      have ht := ih (fun x hx => hpre x (by simp [hx]))
      simp [clearAccessPoints, deleteAccessPoint, ha, ht]

theorem deleteBucketWithAccessPoints_all_ok (p : Provider)
    (bucketName accountId : String)
    (hok : ∀ x ∈ listAccessPoints p bucketName accountId,
        p.deleteAccessPointRaw x accountId = .ok ())
    (hdel : p.deleteBucketRaw bucketName = .ok ()) :
    deleteBucketWithAccessPoints p bucketName accountId =
      { result := .ok
          (forceDeleteSuccessMessage (listAccessPoints p bucketName accountId).length),
        listObjectsRequested := false, rawDeleteAttempted := true,
        bucketDeleted := true,
        accessPointsDeleted := listAccessPoints p bucketName accountId } := by
  unfold deleteBucketWithAccessPoints
  rw [clearAccessPoints_all_ok p accountId _ hok, hdel]

theorem deleteBucketWithAccessPoints_fail_at (p : Provider)
    (bucketName accountId : String) (pre post : List String)
    (ap failMsg : String)
    (haps : listAccessPoints p bucketName accountId = pre ++ ap :: post)
    (hpre : ∀ x ∈ pre, p.deleteAccessPointRaw x accountId = .ok ())
    (hfail : p.deleteAccessPointRaw ap accountId = .error failMsg) :
    deleteBucketWithAccessPoints p bucketName accountId =
      { result := .error
          { message := "Failed to delete bucket with access points: " ++
              ("Failed to delete access point " ++ ap ++ ": " ++ failMsg) },
        listObjectsRequested := false, rawDeleteAttempted := false,
        bucketDeleted := false, accessPointsDeleted := pre } := by
  unfold deleteBucketWithAccessPoints
  rw [haps, clearAccessPoints_first_fail p accountId pre post ap failMsg hpre hfail]

/-- C1 (amended): forced delete on a Resource whose dependents all delete
successfully removes them in listing order and then the Resource; and for
every run in which deleting dependent `ap` fails (all dependents before it
having succeeded), exactly the dependents before `ap` are deleted, no
later dependent is touched, the Resource is not deleted, and the failure
message names the failing dependent and the provider reason (it does not
state the number cleared). -/
theorem C1_force_delete_fail_stop (p : Provider) (bucketName accountId : String) :
    ((∀ x ∈ listAccessPoints p bucketName accountId,
        p.deleteAccessPointRaw x accountId = .ok ()) →
      p.deleteBucketRaw bucketName = .ok () →
      deleteBucketWithAccessPoints p bucketName accountId =
        { result := .ok
            (forceDeleteSuccessMessage (listAccessPoints p bucketName accountId).length),
          listObjectsRequested := false, rawDeleteAttempted := true,
          bucketDeleted := true,
          accessPointsDeleted := listAccessPoints p bucketName accountId }) ∧
    (∀ (pre post : List String) (ap failMsg : String),
      listAccessPoints p bucketName accountId = pre ++ ap :: post →
      (∀ x ∈ pre, p.deleteAccessPointRaw x accountId = .ok ()) →
      p.deleteAccessPointRaw ap accountId = .error failMsg →
      deleteBucketWithAccessPoints p bucketName accountId =
        { result := .error
            { message := "Failed to delete bucket with access points: " ++
                ("Failed to delete access point " ++ ap ++ ": " ++ failMsg) },
          listObjectsRequested := false, rawDeleteAttempted := false,
          bucketDeleted := false, accessPointsDeleted := pre }) :=
  ⟨fun hok hdel => deleteBucketWithAccessPoints_all_ok p bucketName accountId hok hdel,
   fun pre post ap failMsg haps hpre hfail =>
     deleteBucketWithAccessPoints_fail_at p bucketName accountId pre post ap failMsg
       haps hpre hfail⟩

def twoApProvider : Provider :=
  { listObjects := fun _ => .ok emptyBucketResp,
    deleteBucketRaw := fun _ => .ok (),
    listAccessPointsRaw := fun _ _ => .ok ["ap1", "ap2"],
    deleteAccessPointRaw := fun _ _ => .ok () }

def failSecondApProvider : Provider :=
  { listObjects := fun _ => .ok emptyBucketResp,
    deleteBucketRaw := fun _ => .ok (),
    listAccessPointsRaw := fun _ _ => .ok ["alpha", "beta"],
    deleteAccessPointRaw := fun name _ =>
      if name = "beta" then .error "rate limited" else .ok () }

theorem C1_force_delete_fail_stop_witness :
    deleteBucketWithAccessPoints twoApProvider "demo2" "123456789012" =
      { result := .ok
          (forceDeleteSuccessMessage
            (listAccessPoints twoApProvider "demo2" "123456789012").length),
        listObjectsRequested := false, rawDeleteAttempted := true,
        bucketDeleted := true,
        accessPointsDeleted := listAccessPoints twoApProvider "demo2" "123456789012" } ∧
    deleteBucketWithAccessPoints failSecondApProvider "demo2" "123456789012" =
      { result := .error
          { message := "Failed to delete bucket with access points: " ++
              ("Failed to delete access point " ++ "beta" ++ ": " ++ "rate limited") },
        listObjectsRequested := false, rawDeleteAttempted := false,
        bucketDeleted := false, accessPointsDeleted := ["alpha"] } :=
  ⟨(C1_force_delete_fail_stop twoApProvider "demo2" "123456789012").1
      (fun _ _ => rfl) rfl,
   (C1_force_delete_fail_stop failSecondApProvider "demo2" "123456789012").2
      ["alpha"] [] "beta" "rate limited" rfl
      (by intro x hx; simp at hx; subst hx; rfl) rfl⟩

def failFirstApProvider : Provider :=
  { listObjects := fun _ => .ok emptyBucketResp,
    deleteBucketRaw := fun _ => .ok (),
    listAccessPointsRaw := fun _ _ => .ok ["alpha", "beta"],
    deleteAccessPointRaw := fun name _ =>
      if name = "alpha" then .error "network failure" else .ok () }

/-- C1 counterexample: the claim says the failure message states how many
dependents were cleared before the failure.  With dependents
["alpha","beta"] and the very first deletion failing (zero cleared), the
produced message names the failing access point but contains no digit at
all, so it does not state the cleared count. -/
theorem C1_counterexample_failure_message_lacks_count :
    (deleteBucketWithAccessPoints failFirstApProvider "demo2" "123456789012").result =
      .error { message := "Failed to delete bucket with access points: Failed to delete access point alpha: network failure" } ∧
    (deleteBucketWithAccessPoints failFirstApProvider "demo2" "123456789012").accessPointsDeleted = [] ∧
    ("Failed to delete bucket with access points: Failed to delete access point alpha: network failure".toList.all
      (fun c => !c.isDigit)) = true :=
  ⟨rfl, rfl, by decide⟩

/-- C8 (amended): when forced delete succeeds after removing N ≥ 1
dependents its message reports N ("... after removing N access
point(s)" — in particular "2 access point(s)" in the two-dependent
scenario); when no dependents existed the success message is the plain
"Bucket deleted successfully", which states no count. -/
theorem C8_force_delete_success_message (p : Provider)
    (bucketName accountId : String)
    (hok : ∀ x ∈ listAccessPoints p bucketName accountId,
        p.deleteAccessPointRaw x accountId = .ok ())
    (hdel : p.deleteBucketRaw bucketName = .ok ()) :
    (deleteBucketWithAccessPoints p bucketName accountId).result =
      .ok (forceDeleteSuccessMessage (listAccessPoints p bucketName accountId).length) ∧
    ((listAccessPoints p bucketName accountId).length = 2 →
      (deleteBucketWithAccessPoints p bucketName accountId).result =
        .ok "Bucket deleted successfully after removing 2 access point(s)") := by
  have hrun := deleteBucketWithAccessPoints_all_ok p bucketName accountId hok hdel
  refine ⟨by rw [hrun], fun h2 => ?_⟩
  rw [hrun, h2]
  rfl

theorem C8_force_delete_success_message_witness :
    (deleteBucketWithAccessPoints twoApProvider "demo2" "123456789012").result =
      .ok "Bucket deleted successfully after removing 2 access point(s)" :=
  (C8_force_delete_success_message twoApProvider "demo2" "123456789012"
      (fun _ _ => rfl) rfl).2 rfl

def zeroApProvider : Provider :=
  { listObjects := fun _ => .ok emptyBucketResp,
    deleteBucketRaw := fun _ => .ok (),
    listAccessPointsRaw := fun _ _ => .ok [],
    deleteAccessPointRaw := fun _ _ => .ok () }

/-- C8 counterexample: the claim says the success message states 0 when no
dependents existed; with zero dependents the code's ternary takes the
plain branch, whose message contains no digit and differs from any
count-reporting message. -/
theorem C8_counterexample_zero_not_reported :
    (deleteBucketWithAccessPoints zeroApProvider "tidy-bucket" "123456789012").result =
      .ok "Bucket deleted successfully" ∧
    ("Bucket deleted successfully".toList.all (fun c => !c.isDigit)) = true ∧
    "Bucket deleted successfully" ≠
      "Bucket deleted successfully after removing 0 access point(s)" :=
  ⟨rfl, by decide, by decide⟩

/-! ## File listing (`s3Service.listFiles`, lines 202-229) and the size
aggregation helper (`routes/files.js` lines 498-513) -/

/-- One element of the `files` array built by `listFiles`. -/
structure FileEntry where
  key : String
  size : Nat
  lastModified : Nat
  etag : String
  storageClass : String
  deriving DecidableEq

/-- Return value of `listFiles`. -/
structure ListFilesResult where
  files : List FileEntry
  isTruncated : Bool
  nextContinuationToken : Option String
  totalCount : Nat
  deriving DecidableEq

/-- The `ListObjectsV2Command` built by `listFiles` (lines 204-208): only
`Bucket`, `Prefix` and `MaxKeys` — no continuation token field is ever
set. -/
def listFilesRequest (bucketName pfxStr : String) (maxKeys : Nat) :
    ListObjectsV2Request :=
  { bucket := bucketName, pfx := some pfxStr, maxKeys := some maxKeys }

/-- Embedding of `s3Service.listFiles`. -/
def listFiles (p : Provider) (bucketName pfxStr : String) (maxKeys : Nat) :
    Except String ListFilesResult :=
  match p.listObjects (listFilesRequest bucketName pfxStr maxKeys) with
  | .error m => .error ("Failed to list files: " ++ m)
  | .ok resp =>
      .ok { files := resp.contents.map (fun o =>
              { key := o.key, size := o.size, lastModified := o.lastModified,
                etag := o.etag, storageClass := o.storageClass.getD "STANDARD" }),
            isTruncated := resp.isTruncated,
            nextContinuationToken := resp.nextContinuationToken,
            totalCount := resp.keyCount }

/-- Embedding of the `do { ... } while (continuationToken)` loop of
`calculateBucketSize`.  The loop body re-issues the SAME call
`listFiles p bucketName "" 1000` on every iteration — exactly as the
source does: the saved `continuationToken` is used only in the loop
condition and is never passed into the next request (`listFiles` has no
token parameter at all).  `fuel` bounds the number of iterations
considered; `none` means the loop has not terminated within `fuel`
iterations, so `(∀ fuel, ... = none)` states non-termination.  A throwing
page request is caught by the surrounding try and yields `some 0`. -/
def calculateBucketSizeGo (p : Provider) (bucketName : String) :
    Nat → Nat → Option Nat
  | 0, _ => none
  | fuel + 1, totalSize =>
      match listFiles p bucketName "" 1000 with
      | .error _ => some 0
      | .ok result =>
          match result.nextContinuationToken with
          | none => some (totalSize + (result.files.map (fun f => f.size)).sum)
          | some _ =>
              calculateBucketSizeGo p bucketName fuel
                (totalSize + (result.files.map (fun f => f.size)).sum)

/-- Embedding of `calculateBucketSize` (files.js lines 498-513). -/
def calculateBucketSize (p : Provider) (bucketName : String) (fuel : Nat) :
    Option Nat :=
  calculateBucketSizeGo p bucketName fuel 0

def truncatedPageProvider : Provider :=
  { listObjects := fun _ =>
      .ok { contents := [{ key := "part-000", size := 7, lastModified := 0,
                           etag := "etag-t", storageClass := none }],
            isTruncated := true, nextContinuationToken := some "token-1",
            keyCount := 1 },
    deleteBucketRaw := fun _ => .ok (),
    listAccessPointsRaw := fun _ _ => .ok [],
    deleteAccessPointRaw := fun _ _ => .ok () }

def failingListProvider : Provider :=
  { listObjects := fun _ => .error "network unavailable",
    deleteBucketRaw := fun _ => .ok (),
    listAccessPointsRaw := fun _ _ => .ok [],
    deleteAccessPointRaw := fun _ _ => .ok () }

def onePageProvider : Provider :=
  { listObjects := fun _ =>
      .ok { contents := [{ key := "a.txt", size := 5, lastModified := 0,
                           etag := "etag-a", storageClass := none },
                         { key := "b.txt", size := 7, lastModified := 0,
                           etag := "etag-b", storageClass := none }],
            isTruncated := false, nextContinuationToken := none, keyCount := 2 },
    deleteBucketRaw := fun _ => .ok (),
    listAccessPointsRaw := fun _ _ => .ok [],
    deleteAccessPointRaw := fun _ _ => .ok () }

theorem calcGo_truncated_none (bucketName : String) :
    ∀ fuel acc : Nat,
      calculateBucketSizeGo truncatedPageProvider bucketName fuel acc = none := by
  intro fuel
  induction fuel with
  | zero => intro acc; rfl
  | succ n ih =>
      intro acc
      simp only [calculateBucketSizeGo, listFiles, listFilesRequest,
        truncatedPageProvider]
      exact ih _

/-- C4 (code bug): on a provider whose (fixed) answer to the listing
request is a truncated page carrying a continuation token, the
size-aggregation loop never terminates — the token is stored but never
passed into the next request, which is identical on every iteration, so
the loop re-reads the first page forever instead of advancing until the
truncated flag is false.  A failing page request yields 0, and a single
untruncated page yields its size sum, as the claim says. -/
theorem C4_code_bug_pagination :
    (∀ fuel : Nat, calculateBucketSize truncatedPageProvider "big-bucket" fuel = none) ∧
    calculateBucketSize failingListProvider "any-bucket" 1 = some 0 ∧
    calculateBucketSize onePageProvider "small-bucket" 1 = some 12 :=
  ⟨fun fuel => calcGo_truncated_none "big-bucket" fuel 0, rfl, rfl⟩

/-! ## Request-boundary schemas and routes (C9, C10) -/

/-- Normal-return test for `validateBucketName` (`createBucket` proceeds
to the SDK call exactly when this is `true`). -/
def acceptsBucketName (s : String) : Bool :=
  match validateBucketName s with
  | .ok _ => true
  | .error _ => false

/-- C9: the Joi boundary schema checks only length and character class,
so every name the full Validator accepts passes the boundary, but the
converse fails: "my..bucket" passes the boundary (and the delete route
then issues a Gateway call) although the Validator rejects it for
consecutive dots. -/
theorem C9_boundary_checks_only_length_and_charset :
    (∀ s : String, acceptsBucketName s = true → bucketNameSchemaOk s = true) ∧
    bucketNameSchemaOk "my..bucket" = true ∧
    validateBucketName "my..bucket" = .error msgConsecDots ∧
    (deleteBucketRoute demo2Provider (some "123456789012") "my..bucket").gatewayCalled = true := by
  refine ⟨?_, by decide, rfl, rfl⟩
  intro s hs
  have hok : validateBucketName s = .ok () := by
    unfold acceptsBucketName at hs
    cases h : validateBucketName s with
    | ok u => cases u; rfl
    | error m => rw [h] at hs; simp at hs
  have hsp := (validateBucketName_ok_iff s).mp hok
  obtain ⟨h3, h63, hre, -⟩ := hsp
  unfold bucketNameSchemaOk
  simp only [Bool.and_eq_true, decide_eq_true_eq]
  exact ⟨⟨h3, h63⟩, hre⟩

theorem C9_boundary_checks_only_length_and_charset_witness :
    bucketNameSchemaOk "abc" = true :=
  C9_boundary_checks_only_length_and_charset.1 "abc" rfl

/-- Hexadecimal digit value, by code point (48-57 digits, 65-70 upper,
97-102 lower), as used by percent-escape decoding. -/
def hexDigitVal (c : Char) : Option Nat :=
  let n := c.toNat
  if 48 ≤ n ∧ n ≤ 57 then some (n - 48)
  else if 65 ≤ n ∧ n ≤ 70 then some (n - 55)
  else if 97 ≤ n ∧ n ≤ 102 then some (n - 87)
  else none

/-- Models the JavaScript builtin `decodeURIComponent`, restricted to
single-byte (ASCII) percent-escapes: `%XY` with value < 128 decodes to
that character; a malformed escape or a non-ASCII byte is modelled as
`none` (a thrown `URIError`). -/
def percentDecode : List Char → Option (List Char)
  | [] => some []
  | '%' :: h :: l :: rest =>
      match hexDigitVal h, hexDigitVal l with
      | some hi, some lo =>
          if 16 * hi + lo < 128 then
            match percentDecode rest with
            | some ds => some (Char.ofNat (16 * hi + lo) :: ds)
            | none => none
          else none
      | _, _ => none
  | ['%'] => none
  | ['%', _] => none
  | c :: rest =>
      match percentDecode rest with
      | some ds => some (c :: ds)
      | none => none

/-- Character class forbidden by the Joi `fileKeySchema` pattern
`^[^<>:"|?*]+$`. -/
def fileKeyCharForbidden (c : Char) : Bool :=
  c == '<' || c == '>' || c == ':' || c == '"' || c == '|' || c == '?' || c == '*'

/-- Embedding of the Joi `fileKeySchema` (middleware/validation.js lines
19-27): length in [1,1024] and no forbidden character. -/
def fileKeySchemaOk (s : String) : Bool :=
  decide (1 ≤ s.length) && decide (s.length ≤ 1024) &&
    s.toList.all (fun c => !fileKeyCharForbidden c)

/-- Observable outcome of the delete-file route: which key (if any) is
handed to `s3Service.deleteFile`. -/
inductive DeleteFileRouteOutcome where
  | badRequest
  | decodeError
  | deleted (bucket key : String)
  deriving DecidableEq

/-- Embedding of `DELETE /buckets/:bucket/files/:key` (files.js lines
177-214): the key is percent-decoded first (line 180), the schema is then
applied to the bucket and to the RAW key (lines 183-184), and the deletion
is performed with the DECODED key (line 193). -/
def deleteFileRoute (bucket rawKey : String) : DeleteFileRouteOutcome :=
  match percentDecode rawKey.toList with
  | none => .decodeError
  | some decodedKey =>
      if fileKeySchemaOk bucket = false ∨ fileKeySchemaOk rawKey = false then
        .badRequest
      else .deleted bucket (String.mk decodedKey)

/-- C10: the delete-file route validates the percent-encoded key string
but deletes the percent-decoded key; on the request key "a%3Cb" the
schema passes (no forbidden character in the raw string), the route
proceeds to delete key "a<b", yet "a<b" itself is a key the schema would
reject (it contains a forbidden character). -/
theorem C10_delete_validates_encoded_deletes_decoded :
    fileKeySchemaOk "a%3Cb" = true ∧
    deleteFileRoute "mybucket" "a%3Cb" = .deleted "mybucket" "a<b" ∧
    fileKeySchemaOk "a<b" = false :=
  ⟨rfl, rfl, rfl⟩

end S3Admin
